import Mathlib

/-!
Verification of the proxii forward HTTP proxy (src/main.go) against its
natural-language specification.

The Go source is shallowly embedded: pure computations (header lookup and
canonicalization, URL normalization, header copying/removal, dispatch) become
Lean functions translated line-by-line from `main.go`; each handler
(`handleConnect`, `handleRequest`, `handleWebsocket`) becomes a function from
the request and an oracle describing the outcomes of its external calls
(dial, hijack, request construction, round trip, request serialization,
socket write) to the sequence of observable events the handler performs,
with Go `defer` statements modelled by emitting the deferred close events at
function return in LIFO registration order.
-/

set_option autoImplicit false

namespace Proxii

/-! ## Headers: Go `net/textproto` canonicalization and `http.Header` operations -/

/-- Valid header-field byte per Go `net/textproto` (RFC 7230 token characters):
digits, letters, and `!#$%&'*+-.^_|~` and backquote (codes listed explicitly). -/
def validHeaderFieldChar (c : Char) : Bool :=
  let n := c.toNat
  (48 ≤ n && n ≤ 57) || (65 ≤ n && n ≤ 90) || (97 ≤ n && n ≤ 122) ||
  [33, 35, 36, 37, 38, 39, 42, 43, 45, 46, 94, 95, 96, 124, 126].contains n

/-- ASCII uppercase of a single character (used by header canonicalization). -/
def asciiUpperChar (c : Char) : Char :=
  if 97 ≤ c.toNat && c.toNat ≤ 122 then Char.ofNat (c.toNat - 32) else c

/-- ASCII lowercase of a single character. -/
def asciiLowerChar (c : Char) : Char :=
  if 65 ≤ c.toNat && c.toNat ≤ 90 then Char.ofNat (c.toNat + 32) else c

/-- The case-walk of Go `textproto.canonicalMIMEHeaderKey`: uppercase a letter
at the start or right after a hyphen, lowercase every other letter. -/
def canonWalk : Bool → List Char → List Char
  | _, [] => []
  | upper, c :: rest =>
    let c2 := if upper then asciiUpperChar c else asciiLowerChar c
    c2 :: canonWalk (c2 == '-') rest

/-- Go `textproto.CanonicalMIMEHeaderKey`: if every byte is a valid header
field byte, canonicalize the case; otherwise return the key unchanged. -/
def canonKey (s : String) : String :=
  if s.toList.all validHeaderFieldChar then String.mk (canonWalk true s.toList)
  else s

/-- A header multimap, modelled as an ordered association list from header
name to the ordered list of values (Go `http.Header`; keys of a parsed
request are already in canonical form). -/
abbrev Header := List (String × List String)

/-- Go `http.Header.Get`: canonicalize the lookup key, return the first value
stored under it, or the empty string when absent. -/
def headerGet (h : Header) (key : String) : String :=
  match h.find? (fun p => p.1 == canonKey key) with
  | some (_, v :: _) => v
  | _ => ""

/-- Go `http.Header.Add`: canonicalize the key and append the value to its
value list, creating the entry if absent. -/
def headerAdd (h : Header) (key v : String) : Header :=
  let ck := canonKey key
  if h.any (fun p => p.1 == ck) then
    h.map (fun p => if p.1 == ck then (p.1, p.2 ++ [v]) else p)
  else h ++ [(ck, [v])]

/-- Direct Go map assignment `m[k] = v` on a header map: replace the binding
of `k` when present, otherwise add it. No canonicalization (the key comes
from an already-canonical header map in the source). -/
def mapSet (h : Header) (k : String) (v : List String) : Header :=
  if h.any (fun p => p.1 == k) then
    h.map (fun p => if p.1 == k then (k, v) else p)
  else h ++ [(k, v)]

/-- Lookup of the value list bound to a key in a header map (first binding). -/
def headerLookup (h : Header) (k : String) : Option (List String) :=
  (h.find? (fun p => p.1 == k)).map (fun p => p.2)

/-- Model of Go `strings.ToLower` on the ASCII range (every string this
program compares against is ASCII). -/
def strToLower (s : String) : String := String.mk (s.toList.map asciiLowerChar)

/-! ## Requests and URLs -/

/-- The fields of Go `url.URL` that `main.go` reads or writes. -/
structure URL where
  scheme : String
  opaq : String
  host : String
  path : String
  rawQuery : String
  fragment : String
deriving DecidableEq

/-- The fields of a parsed inbound Go `http.Request` that `main.go` uses. -/
structure Request where
  method : String
  url : URL
  host : String
  proto : String
  header : Header
deriving DecidableEq

/-! ## Dispatcher (`ServeHTTP`, src/main.go lines 86-92) -/

/-- The three handlers a request can be routed to. -/
inductive Handler where
  | connect
  | websocket
  | forward
deriving DecidableEq

/-- The routing decision of `proxii.ServeHTTP`: method `CONNECT` goes to the
connect handler; otherwise, when the lowercased `Connection` header value
equals "upgrade" and the lowercased `Upgrade` header value equals
"websocket", the request goes to the websocket handler; otherwise to the
plain HTTP forwarder. -/
def dispatch (req : Request) : Handler :=
  if req.method == "CONNECT" then .connect
  else if strToLower (headerGet req.header "Connection") == "upgrade"
       && strToLower (headerGet req.header "upgrade") == "websocket" then .websocket
  else .forward

/-- A non-CONNECT request whose Connection header merely contains the token
"upgrade" among others, with an upgrade to websocket requested. -/
def c1Request : Request :=
  { method := "GET"
    url := { scheme := "", opaq := "", host := "", path := "/chat",
             rawQuery := "", fragment := "" }
    host := "example.com"
    proto := "HTTP/1.1"
    header := [("Connection", ["keep-alive, Upgrade"]), ("Upgrade", ["websocket"])] }

/-! ## Handler traces

Each handler is embedded as a function from the request plus an oracle for
its external calls to the list of observable events it performs, in program
order. Go `defer` statements are modelled by emitting the deferred close at
function return, in LIFO registration order; an early `return` before a
`defer` is registered emits no close for it. -/

/-- Classification of a dial error as in the handlers' logging code:
a `*net.OpError` wrapping a `*net.DNSError`, a `*net.OpError` wrapping
anything else, or a generic error. -/
inductive DialErrKind where
  | dns
  | net
  | gen
deriving DecidableEq

/-- A failed dial: its classification, the inner error text
(`realerror.Error()`) used by the dns/net log lines, and the full error text
produced by formatting the error itself. -/
structure DialErr where
  kind : DialErrKind
  innerMsg : String
  msg : String
deriving DecidableEq

/-- The error value returned by `hijacker.Hijack()` alongside the connection
and buffer. The source never reads it. -/
structure HijackRes where
  err : Option String
deriving DecidableEq

/-- Observable events a handler can perform, in program order. -/
inductive Ev where
  | dial (target : String)
  | logEv (id : Nat) (msg : String)
  | logPlain (msg : String)
  | addHeaderEv (k v : String)
  | writeStatus (code : Nat)
  | writeBody (s : String)
  | hijackEv
  | writeClient (s : String)
  | flushClient
  | writeOrigin (s : String)
  | spawnCopyClientToOrigin
  | copyOriginToClient
  | doCall
  | copyRespBody
  | closeRespBody
  | closeClient
  | closeOrigin
deriving DecidableEq

/-- Trace of `handleConnect` (src/main.go lines 97-132). `dialResult` is the
outcome of `dialer.Dial("tcp", request.Host)` (`none` on success); `hj` is
the hijack result, taken as a parameter because the source assigns but never
inspects it. On dial failure the handler logs by error class, adds
Content-Type, writes status 502 and the body, and returns before any defer is
registered. On success it registers deferred closes of the origin and client
connections, hijacks, writes the literal established line, flushes, spawns
the client-to-origin copy, runs the origin-to-client copy, and on return the
deferred closes run in LIFO order. -/
def handleConnect (requestID : Nat) (req : Request) (dialResult : Option DialErr)
    (hj : HijackRes) : List Ev :=
  Ev.dial req.host ::
  match dialResult with
  | some e =>
    (match e.kind with
     | .dns => [Ev.logEv requestID ("| Connect error(dns): " ++ e.innerMsg)]
     | .net => [Ev.logEv requestID ("| Connect error:(net)" ++ e.innerMsg)]
     | .gen => [Ev.logEv requestID ("| Connect error(gen): " ++ e.msg)]) ++
    [Ev.addHeaderEv "Content-Type" "text/plain",
     Ev.writeStatus 502,
     Ev.writeBody ("Connect error: " ++ e.msg)]
  | none =>
    [Ev.hijackEv,
     Ev.logEv requestID "| Connect success",
     Ev.writeClient "HTTP/1.1 200 Connection established\r\n\r\n",
     Ev.flushClient,
     Ev.spawnCopyClientToOrigin,
     Ev.copyOriginToClient,
     Ev.closeClient,
     Ev.closeOrigin]

/-- The in-place URL mutation of `handleWebsocket` (src/main.go lines
206-207): set the URL scheme to "ws" and the URL host to the request's Host
value. -/
def wsRewrite (req : Request) : Request :=
  { req with url := { req.url with scheme := "ws", host := req.host } }

/-- Trace of `handleWebsocket` (src/main.go lines 182-234). `dump` is the
oracle for `httputil.DumpRequest(request, false)`, applied to the request
after the scheme/host rewrite; `hj` is the unread hijack error; `writeRes`
is the `(n, err)` result of `conn.Write`, taken as a parameter because the
source discards it. Dial failure mirrors `handleConnect` with WSConnect
wording. After a successful dial the deferred origin close is registered, so
the dump-failure path (500 response, before any hijack) still closes the
origin; the success path hijacks, writes the serialized bytes to the origin,
relays, and closes both connections in LIFO defer order. -/
def handleWebsocket (requestID : Nat) (req : Request) (dialResult : Option DialErr)
    (dump : Request → Except String String) (hj : HijackRes)
    (writeRes : Nat × Option String) : List Ev :=
  Ev.dial req.host ::
  match dialResult with
  | some e =>
    (match e.kind with
     | .dns => [Ev.logEv requestID ("| WSConnect error(dns): " ++ e.innerMsg)]
     | .net => [Ev.logEv requestID ("| WSConnect error:(net)" ++ e.innerMsg)]
     | .gen => [Ev.logEv requestID ("| WSConnect error(gen): " ++ e.msg)]) ++
    [Ev.addHeaderEv "Content-Type" "text/plain",
     Ev.writeStatus 502,
     Ev.writeBody ("WSConnect error: " ++ e.msg)]
  | none =>
    match dump (wsRewrite req) with
    | .error m =>
      [Ev.logPlain ("cannot reconstruct:" ++ m),
       Ev.addHeaderEv "Content-Type" "text/plain",
       Ev.writeStatus 500,
       Ev.writeBody ("WSConnect dump error: " ++ m),
       Ev.closeOrigin]
    | .ok b =>
      [Ev.hijackEv,
       Ev.logEv requestID "| WSConnect success",
       Ev.writeOrigin b,
       Ev.logEv requestID "| WSConnect Wrote header",
       Ev.spawnCopyClientToOrigin,
       Ev.copyOriginToClient,
       Ev.closeClient,
       Ev.closeOrigin]

/-! ## Event classifiers -/

/-- Recognizes the origin-connection close event. -/
def isCloseOrigin : Ev → Bool
  | .closeOrigin => true
  | _ => false

/-- Recognizes the hijacked-client-connection close event. -/
def isCloseClient : Ev → Bool
  | .closeClient => true
  | _ => false

/-- Recognizes the hijack event. -/
def isHijack : Ev → Bool
  | .hijackEv => true
  | _ => false

/-- Recognizes an HTTP status write on the response writer. -/
def isWriteStatus : Ev → Bool
  | .writeStatus _ => true
  | _ => false

/-- Recognizes a response-body write on the response writer. -/
def isWriteBody : Ev → Bool
  | .writeBody _ => true
  | _ => false

/-- Recognizes a raw write to the dialed origin connection. -/
def isWriteOrigin : Ev → Bool
  | .writeOrigin _ => true
  | _ => false

/-- Recognizes a log event of either form. -/
def isLogged : Ev → Bool
  | .logEv _ _ => true
  | .logPlain _ => true
  | _ => false

/-- Whether some write to the origin connection occurs strictly before the
hijack of the client connection in a trace (first occurrences compared). -/
def writeOriginBeforeHijackB (t : List Ev) : Bool :=
  match t.findIdx? isWriteOrigin, t.findIdx? isHijack with
  | some i, some j => i < j
  | _, _ => false

/-- A typical WebSocket upgrade request, used as the concrete session for
the handshake-ordering counterexample. -/
def c8Request : Request :=
  { method := "GET"
    url := { scheme := "http", opaq := "", host := "echo.example", path := "/ws",
             rawQuery := "", fragment := "" }
    host := "echo.example"
    proto := "HTTP/1.1"
    header := [("Connection", ["Upgrade"]), ("Upgrade", ["websocket"])] }

/-- A serialization oracle that succeeds with fixed bytes, standing for a
successful `httputil.DumpRequest`. -/
def c8Dump : Request → Except String String :=
  fun _ => Except.ok "GET /ws HTTP/1.1\r\nHost: echo.example\r\n\r\n"

/-! ## HTTP forwarder (`handleRequest`, src/main.go lines 134-180) -/

/-- The status code and headers of the origin response returned by
`client.Do` (its body is only streamed and closed, never inspected). -/
structure RespData where
  statusCode : Nat
  header : Header
deriving DecidableEq

/-- The transparent-proxy URL normalization of `handleRequest` (src/main.go
lines 137-144): an empty scheme becomes "http", then an empty host is filled
from the request's Host value; nothing else is touched. -/
def normalizeURL (u : URL) (reqHost : String) : URL :=
  let u1 := if u.scheme == "" then { u with scheme := "http" } else u
  if u1.host == "" then { u1 with host := reqHost } else u1

/-- The outbound header computation of `handleRequest` (src/main.go lines
155-156): the inbound header map with the "Proxy-Connection" binding
deleted. -/
def outboundHeaders (h : Header) : Header :=
  h.filter (fun p => !(p.1 == "Proxy-Connection"))

/-- The response-header copy loop of `handleRequest` (src/main.go lines
172-174): for each origin header key, assign its value list into the client
response header map, overwriting any existing binding. -/
def copyHeaders (dst src : Header) : Header :=
  src.foldl (fun d p => mapSet d p.1 p.2) dst

/-- Output of the forwarder: its event trace, the final client response
header map, the headers placed on the outbound request (when one was
constructed), and the normalized URL the outbound request was built from. -/
structure FwdOut where
  events : List Ev
  respHeader : Header
  outboundHeader : Option Header
  urlUsed : URL
deriving DecidableEq

/-- Embedding of `handleRequest`. `newReqErr` is the outcome of
`http.NewRequest` and `doResult` that of `client.Do`; `rh0` is the client
response header map before the handler runs. Construction failure responds
502 with body "New request error: ..." and performs no outbound call;
round-trip failure responds 502 with body "Request error: ..."; on success
the origin headers are copied over `rh0` by overwriting assignment, the
origin status is written verbatim, the body is streamed, and the deferred
close of the origin response body runs at return. -/
def handleRequest (requestID : Nat) (req : Request)
    (newReqErr : Option String) (doResult : Except String RespData)
    (rh0 : Header) : FwdOut :=
  let u := normalizeURL req.url req.host
  match newReqErr with
  | some m =>
    { events := [Ev.logEv requestID ("| NewRequest error: " ++ m),
                 Ev.addHeaderEv "Content-Type" "text/plain",
                 Ev.writeStatus 502,
                 Ev.writeBody ("New request error: " ++ m)]
      respHeader := headerAdd rh0 "Content-Type" "text/plain"
      outboundHeader := none
      urlUsed := u }
  | none =>
    let ch := outboundHeaders req.header
    match doResult with
    | .error m =>
      { events := [Ev.doCall,
                   Ev.logEv requestID ("| Request error: " ++ m),
                   Ev.addHeaderEv "Content-Type" "text/plain",
                   Ev.writeStatus 502,
                   Ev.writeBody ("Request error: " ++ m)]
        respHeader := headerAdd rh0 "Content-Type" "text/plain"
        outboundHeader := some ch
        urlUsed := u }
    | .ok resp =>
      { events := [Ev.doCall, Ev.writeStatus resp.statusCode,
                   Ev.copyRespBody, Ev.closeRespBody]
        respHeader := copyHeaders rh0 resp.header
        outboundHeader := some ch
        urlUsed := u }

/-- Recognizes the deferred close of the origin response body. -/
def isCloseRespBody : Ev → Bool
  | .closeRespBody => true
  | _ => false

/-- Concrete transparently-intercepted request used to instantiate the
forwarder theorems. -/
def c4Request : Request :=
  { method := "GET"
    url := { scheme := "", opaq := "", host := "", path := "/get",
             rawQuery := "", fragment := "" }
    host := "origin.example"
    proto := "HTTP/1.1"
    header := [("Accept", ["text/html"]), ("Proxy-Connection", ["keep-alive"])] }

/-- Concrete origin response whose Content-Type collides with a value
already present on the client response writer. -/
def c4Resp : RespData :=
  { statusCode := 200
    header := [("Content-Type", ["application/json"]), ("X-Origin", ["1"])] }

/-- Client response header map already holding a Content-Type before the
origin headers are copied over it. -/
def c4Rh0 : Header := [("Content-Type", ["text/html"])]

/-- Concrete request carrying a Proxy-Connection header among others. -/
def c6Request : Request :=
  { method := "GET"
    url := { scheme := "http", opaq := "", host := "origin.example", path := "/",
             rawQuery := "", fragment := "" }
    host := "origin.example"
    proto := "HTTP/1.1"
    header := [("Accept", ["text/html"]), ("Proxy-Connection", ["keep-alive"]),
               ("X-B", ["2"])] }

/-- C1 counterexample: the claim says a request with Connection value
"keep-alive, Upgrade" and Upgrade "websocket" is routed to the WebSocket
handler, but `ServeHTTP` compares the whole lowercased Connection value for
equality with "upgrade", so this request goes to the HTTP forwarder. -/
theorem c1_contains_routing_counterexample :
    dispatch c1Request = Handler.forward ∧ dispatch c1Request ≠ Handler.websocket := by
  constructor
  · rfl
  · decide

/-- C1 (amended): first-match routing order of `ServeHTTP`. A request is
routed to the connect handler iff its method is CONNECT; to the websocket
handler iff it is not CONNECT and the whole lowercased Connection header
value equals "upgrade" while the lowercased Upgrade header value equals
"websocket" (whole-value equality, not token containment); otherwise to the
HTTP forwarder. -/
theorem c1_dispatch_first_match (req : Request) :
    (dispatch req = Handler.connect ↔ req.method = "CONNECT") ∧
    (dispatch req = Handler.websocket ↔
      req.method ≠ "CONNECT" ∧
      strToLower (headerGet req.header "Connection") = "upgrade" ∧
      strToLower (headerGet req.header "upgrade") = "websocket") ∧
    (dispatch req = Handler.forward ↔
      req.method ≠ "CONNECT" ∧
      ¬(strToLower (headerGet req.header "Connection") = "upgrade" ∧
        strToLower (headerGet req.header "upgrade") = "websocket")) := by
  unfold dispatch
  by_cases hm : req.method = "CONNECT" <;>
    by_cases hc : strToLower (headerGet req.header "Connection") = "upgrade" <;>
      by_cases hu : strToLower (headerGet req.header "upgrade") = "websocket" <;>
        simp [hm, hc, hu]

/-- C2: in every CONNECT or WebSocket session whose dial succeeds, the origin
connection is closed exactly once on every exit path, and the hijacked client
connection is closed exactly once whenever the session hijacked it (the
WebSocket serialization-failure path returns before hijacking, so it closes
only the origin). -/
theorem c2_tunnel_both_closed_once (requestID : Nat) (req : Request) (hj : HijackRes)
    (dump : Request → Except String String) (writeRes : Nat × Option String) :
    (handleConnect requestID req none hj).countP isCloseOrigin = 1 ∧
    (handleConnect requestID req none hj).countP isCloseClient = 1 ∧
    (handleConnect requestID req none hj).countP isCloseClient =
      (handleConnect requestID req none hj).countP isHijack ∧
    (handleWebsocket requestID req none dump hj writeRes).countP isCloseOrigin = 1 ∧
    (handleWebsocket requestID req none dump hj writeRes).countP isCloseClient =
      (handleWebsocket requestID req none dump hj writeRes).countP isHijack := by
  refine ⟨rfl, rfl, rfl, ?_, ?_⟩ <;>
    cases h : dump (wsRewrite req) <;> simp only [handleWebsocket, h] <;> rfl

/-- C3: the hijack error is never checked: after a successful dial the
traces of both handlers are identical whatever error the hijack returned,
and in particular the connect handler still writes the success line into the
hijacked buffer and still closes the hijacked client connection, and in both
handlers every hijack is matched by a deferred close of the returned client
connection. -/
theorem c3_hijack_error_unchecked (requestID : Nat) (req : Request)
    (hj hj2 : HijackRes) (dump : Request → Except String String)
    (writeRes : Nat × Option String) :
    handleConnect requestID req none hj = handleConnect requestID req none hj2 ∧
    handleWebsocket requestID req none dump hj writeRes =
      handleWebsocket requestID req none dump hj2 writeRes ∧
    Ev.writeClient "HTTP/1.1 200 Connection established\r\n\r\n"
      ∈ handleConnect requestID req none hj ∧
    Ev.closeClient ∈ handleConnect requestID req none hj ∧
    (handleWebsocket requestID req none dump hj writeRes).countP isCloseClient =
      (handleWebsocket requestID req none dump hj writeRes).countP isHijack := by
  refine ⟨rfl, rfl, by simp [handleConnect], by simp [handleConnect], ?_⟩
  cases h : dump (wsRewrite req) <;> simp only [handleWebsocket, h] <;> rfl

/-- C7: when the CONNECT dial fails the handler writes exactly one status,
502, exactly one body, "Connect error: " followed by the error text, adds
Content-Type text/plain, and never hijacks; when the dial succeeds it writes
no status and no body on the HTTP response writer (the established line goes
raw to the hijacked connection). -/
theorem c7_connect_dial_failure (requestID : Nat) (req : Request)
    (e : DialErr) (hj : HijackRes) :
    (handleConnect requestID req (some e) hj).filter isWriteStatus
      = [Ev.writeStatus 502] ∧
    (handleConnect requestID req (some e) hj).filter isWriteBody
      = [Ev.writeBody ("Connect error: " ++ e.msg)] ∧
    Ev.addHeaderEv "Content-Type" "text/plain" ∈ handleConnect requestID req (some e) hj ∧
    Ev.hijackEv ∉ handleConnect requestID req (some e) hj ∧
    (handleConnect requestID req none hj).filter isWriteStatus = [] ∧
    (handleConnect requestID req none hj).filter isWriteBody = [] := by
  obtain ⟨k, im, m⟩ := e
  cases k <;>
    exact ⟨rfl, rfl, by simp [handleConnect], by simp [handleConnect], rfl, rfl⟩

/-- C8 counterexample: the claim says the serialized handshake bytes are
written to the origin before the client connection is hijacked, but in the
session below the hijack is the second event of the trace and the origin
write only the fourth, so no origin write precedes the hijack. -/
theorem c8_write_before_hijack_counterexample :
    (handleWebsocket 1 c8Request none c8Dump ⟨none⟩ (0, none)).findIdx? isHijack
      = some 1 ∧
    (handleWebsocket 1 c8Request none c8Dump ⟨none⟩ (0, none)).findIdx? isWriteOrigin
      = some 3 ∧
    writeOriginBeforeHijackB (handleWebsocket 1 c8Request none c8Dump ⟨none⟩ (0, none))
      = false := ⟨rfl, rfl, rfl⟩

/-- C8 (amended): after a successful dial the handler rewrites the URL scheme
to "ws" and the URL host to the request's Host value, leaving method, headers
and path unchanged, and serializes the request so rewritten; when
serialization succeeds with bytes b, the trace is exactly dial, hijack,
success log, the write of b unmodified to the origin, the wrote-header log,
the two relay copies, and the two deferred closes — the hijack occurring
before the origin write; when serialization fails with message m, the
handler logs, responds 500 with Content-Type text/plain and body
"WSConnect dump error: " followed by m, and no hijack occurs. -/
theorem c8_ws_handshake (requestID : Nat) (req : Request)
    (dump : Request → Except String String) (hj : HijackRes)
    (writeRes : Nat × Option String) :
    (wsRewrite req).url.scheme = "ws" ∧
    (wsRewrite req).url.host = req.host ∧
    (wsRewrite req).url.path = req.url.path ∧
    (wsRewrite req).header = req.header ∧
    (wsRewrite req).method = req.method ∧
    (match dump (wsRewrite req) with
     | Except.ok b =>
        handleWebsocket requestID req none dump hj writeRes =
          [Ev.dial req.host, Ev.hijackEv, Ev.logEv requestID "| WSConnect success",
           Ev.writeOrigin b, Ev.logEv requestID "| WSConnect Wrote header",
           Ev.spawnCopyClientToOrigin, Ev.copyOriginToClient,
           Ev.closeClient, Ev.closeOrigin]
     | Except.error m =>
        handleWebsocket requestID req none dump hj writeRes =
          [Ev.dial req.host, Ev.logPlain ("cannot reconstruct:" ++ m),
           Ev.addHeaderEv "Content-Type" "text/plain", Ev.writeStatus 500,
           Ev.writeBody ("WSConnect dump error: " ++ m), Ev.closeOrigin]) := by
  refine ⟨rfl, rfl, rfl, rfl, rfl, ?_⟩
  cases h : dump (wsRewrite req) <;> simp only [handleWebsocket, h]

/-- C10: the result of writing the serialized handshake to the origin is
discarded: the trace is identical for every possible `(n, err)` outcome of
the write, and whenever serialization succeeded (so the write is attempted)
the session still hijacks and relays in both directions, writes no status
and no body on the HTTP response writer, and its only log lines are the two
fixed success lines — no log of any write failure. -/
theorem c10_ws_origin_write_ignored (requestID : Nat) (req : Request)
    (dump : Request → Except String String) (hj : HijackRes)
    (writeRes writeRes2 : Nat × Option String) :
    handleWebsocket requestID req none dump hj writeRes =
      handleWebsocket requestID req none dump hj writeRes2 ∧
    (match dump (wsRewrite req) with
     | Except.ok _ =>
        Ev.hijackEv ∈ handleWebsocket requestID req none dump hj writeRes ∧
        Ev.spawnCopyClientToOrigin ∈ handleWebsocket requestID req none dump hj writeRes ∧
        Ev.copyOriginToClient ∈ handleWebsocket requestID req none dump hj writeRes ∧
        (handleWebsocket requestID req none dump hj writeRes).filter isWriteStatus = [] ∧
        (handleWebsocket requestID req none dump hj writeRes).filter isWriteBody = [] ∧
        (handleWebsocket requestID req none dump hj writeRes).filter isLogged =
          [Ev.logEv requestID "| WSConnect success",
           Ev.logEv requestID "| WSConnect Wrote header"]
     | Except.error _ => True) := by
  refine ⟨rfl, ?_⟩
  cases h : dump (wsRewrite req)
  · trivial
  · simp only [handleWebsocket, h]
    exact ⟨by simp, by simp, by simp, rfl, rfl, rfl⟩

/-! ## Helper lemmas about header-map operations -/

theorem headerLookup_mapSet_self (h : Header) (k : String) (v : List String) :
    headerLookup (mapSet h k v) k = some v := by
  unfold mapSet headerLookup
  by_cases hany : h.any (fun p => p.1 == k) = true
  · rw [if_pos hany, List.find?_map]
    have hpred : ((fun p : String × List String => p.1 == k) ∘
        (fun p => if p.1 == k then (k, v) else p)) = fun p => p.1 == k := by
      funext p
      by_cases hp : p.1 = k <;> simp [hp]
    rw [hpred]
    rcases hq : List.find? (fun p => p.1 == k) h with _ | q
    · rw [List.find?_eq_none] at hq
      rcases List.any_eq_true.mp hany with ⟨p, hp, hpk⟩
      exact absurd hpk (hq p hp)
    · have hqk := List.find?_some hq
      simp [hq, beq_iff_eq.mp hqk]
  · rw [if_neg hany, List.find?_append]
    have h1 : List.find? (fun p => p.1 == k) h = none :=
      List.find?_eq_none.mpr (fun x hx hxk =>
        hany (List.any_eq_true.mpr ⟨x, hx, hxk⟩))
    simp [h1]

theorem headerLookup_mapSet_other (h : Header) (k k2 : String) (v : List String)
    (hne : k2 ≠ k) : headerLookup (mapSet h k v) k2 = headerLookup h k2 := by
  unfold mapSet headerLookup
  by_cases hany : h.any (fun p => p.1 == k) = true
  · rw [if_pos hany, List.find?_map]
    have hpred : ((fun p : String × List String => p.1 == k2) ∘
        (fun p => if p.1 == k then (k, v) else p)) = fun p => p.1 == k2 := by
      funext p
      by_cases hp : p.1 = k <;> simp [hp]
    rw [hpred]
    rcases hq : List.find? (fun p => p.1 == k2) h with _ | q
    · simp [hq]
    · have hqk2 := List.find?_some hq
      have hqk : (q.1 == k) = false := by
        rw [beq_eq_false_iff_ne]
        intro hqkk
        exact hne ((beq_iff_eq.mp hqk2).symm.trans hqkk)
      simp [hq, beq_eq_false_iff_ne.mp hqk]
  · rw [if_neg hany, List.find?_append]
    have h2 : List.find? (fun p => p.1 == k2) [(k, v)] = none := by
      simp [beq_eq_false_iff_ne, Ne.symm hne]
    rw [h2]
    cases List.find? (fun p => p.1 == k2) h <;> rfl

theorem headerLookup_copyHeaders_not_mem (src : Header) (k : String) :
    ∀ dst : Header, k ∉ src.map Prod.fst →
      headerLookup (copyHeaders dst src) k = headerLookup dst k := by
  induction src with
  | nil => intro dst _; rfl
  | cons hd tl ih =>
    intro dst hk
    simp only [List.map_cons, List.mem_cons, not_or] at hk
    have step : copyHeaders dst (hd :: tl) = copyHeaders (mapSet dst hd.1 hd.2) tl := rfl
    rw [step, ih _ hk.2, headerLookup_mapSet_other _ _ _ _ hk.1]

theorem headerLookup_copyHeaders_mem (src : Header) (k : String) (v : List String) :
    ∀ dst : Header, (src.map Prod.fst).Nodup → (k, v) ∈ src →
      headerLookup (copyHeaders dst src) k = some v := by
  induction src with
  | nil => intro dst _ hmem; cases hmem
  | cons hd tl ih =>
    intro dst hnd hmem
    simp only [List.map_cons, List.nodup_cons] at hnd
    have step : copyHeaders dst (hd :: tl) = copyHeaders (mapSet dst hd.1 hd.2) tl := rfl
    rcases List.mem_cons.mp hmem with heq | hmemtl
    · subst heq
      rw [step, headerLookup_copyHeaders_not_mem tl k _ hnd.1,
        headerLookup_mapSet_self]
    · rw [step]
      exact ih _ hnd.2 hmemtl

theorem headerLookup_outboundHeaders_ne (h : Header) (k : String)
    (hk : k ≠ "Proxy-Connection") :
    headerLookup (outboundHeaders h) k = headerLookup h k := by
  unfold outboundHeaders headerLookup
  induction h with
  | nil => rfl
  | cons hd tl ih =>
    by_cases hpc : hd.1 = "Proxy-Connection"
    · rw [List.filter_cons_of_neg (by simp [hpc]),
        List.find?_cons_of_neg _ (by simp [hpc, Ne.symm hk])]
      exact ih
    · by_cases hhd : hd.1 = k
      · rw [List.filter_cons_of_pos (by simp [hpc]),
          List.find?_cons_of_pos _ (by simp [hhd]),
          List.find?_cons_of_pos _ (by simp [hhd])]
      · rw [List.filter_cons_of_pos (by simp [hpc]),
          List.find?_cons_of_neg _ (by simp [hhd]),
          List.find?_cons_of_neg _ (by simp [hhd])]
        exact ih

theorem headerLookup_outboundHeaders_pc (h : Header) :
    headerLookup (outboundHeaders h) "Proxy-Connection" = none := by
  have h1 : List.find? (fun p => p.1 == "Proxy-Connection") (outboundHeaders h) = none := by
    rw [List.find?_eq_none]
    intro p hp
    have h2 := (List.mem_filter.mp hp).2
    simp only [Bool.not_eq_eq_eq_not, Bool.not_true, beq_eq_false_iff_ne, ne_eq] at h2
    simpa using h2
  rw [headerLookup, h1]
  rfl

/-- C5: the forwarder builds its outbound request from the normalized URL,
and normalization changes exactly this: an empty scheme becomes "http", an
empty host is filled from the request's Host value, and every other URL part
(opaque, path, query, fragment) is left unchanged. -/
theorem c5_url_normalization (requestID : Nat) (req : Request)
    (newReqErr : Option String) (doResult : Except String RespData) (rh0 : Header)
    (u : URL) (host : String) :
    (handleRequest requestID req newReqErr doResult rh0).urlUsed
      = normalizeURL req.url req.host ∧
    (normalizeURL u host).scheme = (if u.scheme = "" then "http" else u.scheme) ∧
    (normalizeURL u host).host = (if u.host = "" then host else u.host) ∧
    (normalizeURL u host).opaq = u.opaq ∧
    (normalizeURL u host).path = u.path ∧
    (normalizeURL u host).rawQuery = u.rawQuery ∧
    (normalizeURL u host).fragment = u.fragment := by
  refine ⟨?_, ?_, ?_, ?_, ?_, ?_, ?_⟩
  · cases newReqErr <;> cases doResult <;> rfl
  all_goals
    unfold normalizeURL
    by_cases hs : u.scheme = "" <;> by_cases hh : u.host = "" <;> simp [hs, hh]

/-- C6: the outbound request carries the inbound headers with exactly the
Proxy-Connection binding deleted: Proxy-Connection is never present on the
outbound headers, every other key looks up to its inbound value list, the
outbound header list is a sublist of the inbound one (nothing added or
reordered), and every inbound entry either survives or had the key
Proxy-Connection. -/
theorem c6_proxy_connection_stripped (requestID : Nat) (req : Request)
    (doResult : Except String RespData) (rh0 : Header) :
    (handleRequest requestID req none doResult rh0).outboundHeader
      = some (outboundHeaders req.header) ∧
    headerLookup (outboundHeaders req.header) "Proxy-Connection" = none ∧
    (∀ k, k ≠ "Proxy-Connection" →
      headerLookup (outboundHeaders req.header) k = headerLookup req.header k) ∧
    (outboundHeaders req.header).Sublist req.header ∧
    (∀ p, p ∈ req.header → p ∈ outboundHeaders req.header ∨ p.1 = "Proxy-Connection") := by
  refine ⟨?_, headerLookup_outboundHeaders_pc _,
    fun k hk => headerLookup_outboundHeaders_ne _ _ hk, List.filter_sublist _, ?_⟩
  · cases doResult <;> rfl
  · intro p hp
    by_cases hpc : p.1 = "Proxy-Connection"
    · exact Or.inr hpc
    · exact Or.inl (List.mem_filter.mpr ⟨hp, by simp [hpc]⟩)

/-- Witness for C6 at a concrete request: Proxy-Connection is gone from the
outbound headers, Accept is untouched, and the surviving Accept entry is
still present. -/
theorem c6_proxy_connection_stripped_witness :
    (handleRequest 3 c6Request none (Except.error "boom") []).outboundHeader
      = some (outboundHeaders c6Request.header) ∧
    headerLookup (outboundHeaders c6Request.header) "Proxy-Connection" = none ∧
    headerLookup (outboundHeaders c6Request.header) "Accept"
      = headerLookup c6Request.header "Accept" ∧
    (("Accept", ["text/html"]) ∈ outboundHeaders c6Request.header ∨
      ("Accept" : String) = "Proxy-Connection") := by
  have h := c6_proxy_connection_stripped 3 c6Request (Except.error "boom") []
  exact ⟨h.1, h.2.1, h.2.2.1 "Accept" (by decide),
    h.2.2.2.2 ("Accept", ["text/html"]) (by decide)⟩

/-- C9: when construction of the outbound request fails with message m, the
forwarder writes exactly one status, 502, exactly one body, "New request
error: " followed by m, adds Content-Type text/plain, and never calls the
outbound client. -/
theorem c9_new_request_failure (requestID : Nat) (req : Request) (m : String)
    (doResult : Except String RespData) (rh0 : Header) :
    (handleRequest requestID req (some m) doResult rh0).events.filter isWriteStatus
      = [Ev.writeStatus 502] ∧
    (handleRequest requestID req (some m) doResult rh0).events.filter isWriteBody
      = [Ev.writeBody ("New request error: " ++ m)] ∧
    Ev.addHeaderEv "Content-Type" "text/plain"
      ∈ (handleRequest requestID req (some m) doResult rh0).events ∧
    Ev.doCall ∉ (handleRequest requestID req (some m) doResult rh0).events := by
  refine ⟨rfl, rfl, by simp [handleRequest], by simp [handleRequest]⟩

/-- C4: on a successful round trip the forwarder writes exactly one status,
the origin's, closes the origin response body exactly once, streams the body
(the copy event models the unbuffered `io.Copy` of the body stream) and
writes no buffered body of its own; the final client response headers are
the initial ones overwritten binding-by-binding by the origin headers: every
origin key now looks up to exactly its origin value list (replacement, not
append), and every other key keeps its prior value list. -/
theorem c4_forward_success (requestID : Nat) (req : Request) (resp : RespData)
    (rh0 : Header) (hnd : (resp.header.map Prod.fst).Nodup) :
    (handleRequest requestID req none (Except.ok resp) rh0).events.filter isWriteStatus
      = [Ev.writeStatus resp.statusCode] ∧
    (handleRequest requestID req none (Except.ok resp) rh0).events.countP isCloseRespBody
      = 1 ∧
    Ev.copyRespBody ∈ (handleRequest requestID req none (Except.ok resp) rh0).events ∧
    (handleRequest requestID req none (Except.ok resp) rh0).events.filter isWriteBody
      = [] ∧
    (handleRequest requestID req none (Except.ok resp) rh0).respHeader
      = copyHeaders rh0 resp.header ∧
    (∀ k v, (k, v) ∈ resp.header →
      headerLookup (handleRequest requestID req none (Except.ok resp) rh0).respHeader k
        = some v) ∧
    (∀ k, k ∉ resp.header.map Prod.fst →
      headerLookup (handleRequest requestID req none (Except.ok resp) rh0).respHeader k
        = headerLookup rh0 k) := by
  refine ⟨rfl, rfl, by simp [handleRequest], rfl, rfl, ?_, ?_⟩
  · intro k v hmem
    exact headerLookup_copyHeaders_mem resp.header k v rh0 hnd hmem
  · intro k hk
    exact headerLookup_copyHeaders_not_mem resp.header k rh0 hk

/-- Witness for C4 at a concrete session: status 200 written, the origin
Content-Type overwrote the client's pre-existing one, and a key absent from
the origin response kept its prior value. -/
theorem c4_forward_success_witness :
    (handleRequest 7 c4Request none (Except.ok c4Resp) c4Rh0).events.filter isWriteStatus
      = [Ev.writeStatus 200] ∧
    headerLookup (handleRequest 7 c4Request none (Except.ok c4Resp) c4Rh0).respHeader
      "Content-Type" = some ["application/json"] ∧
    headerLookup (handleRequest 7 c4Request none (Except.ok c4Resp) c4Rh0).respHeader
      "X-Absent" = headerLookup c4Rh0 "X-Absent" := by
  have h := c4_forward_success 7 c4Request c4Resp c4Rh0 (by decide)
  exact ⟨h.1, h.2.2.2.2.2.1 "Content-Type" ["application/json"] (by decide),
    h.2.2.2.2.2.2 "X-Absent" (by decide)⟩

end Proxii
